import Mathlib

/-!
Shallow embedding of the Quartz Vulkan renderer frame scheduler
(src/raytrace/renderers/vulkan/renderer.cpp), covering the dirty tracker,
the job-graph builder (Renderer::jobsToExecute and the createXxxJobs
helpers), the frame resource ring (previousFrameIndex, submitFrameCommands,
createRenderBufferResources), the per-frame state machine (renderFrame),
the timing aggregator (updateFrameTimings) and image readback (grabImage).
Machine integers do not overflow in the modelled ranges, so indices are Nat
and time samples are rationals.
-/

namespace Quartz

/-- DirtySet: bitset over the change categories raised via markDirty.
Mirrors the DirtyFlag flags used by renderer.cpp (NoneDirty is the state
with every bit clear). -/
structure DirtySet where
  transform : Bool := false
  geometry : Bool := false
  material : Bool := false
  texture : Bool := false
  light : Bool := false
  camera : Bool := false
  entity : Bool := false
deriving DecidableEq, Repr

/-- The empty dirty set, DirtyFlag::NoneDirty. -/
def DirtySet.noneDirty : DirtySet := {}

/-- Bitwise OR of two dirty sets, the effect of operator |= on QFlags. -/
def DirtySet.union (a b : DirtySet) : DirtySet :=
  ⟨a.transform || b.transform, a.geometry || b.geometry,
   a.material || b.material, a.texture || b.texture,
   a.light || b.light, a.camera || b.camera, a.entity || b.entity⟩

/-- Bit containment between dirty sets: every bit set in a is set in b. -/
def DirtySet.subset (a b : DirtySet) : Prop :=
  (a.transform = true → b.transform = true) ∧
  (a.geometry = true → b.geometry = true) ∧
  (a.material = true → b.material = true) ∧
  (a.texture = true → b.texture = true) ∧
  (a.light = true → b.light = true) ∧
  (a.camera = true → b.camera = true) ∧
  (a.entity = true → b.entity = true)

instance (a b : DirtySet) : Decidable (DirtySet.subset a b) := by
  unfold DirtySet.subset
  infer_instance

/-- Renderer::markDirty: ORs the change categories into the accumulated
dirty set (the node argument is unused by the code). -/
def markDirty (dirtySet changes : DirtySet) : DirtySet :=
  dirtySet.union changes

/-- Kind of an update job produced by the job-graph builder, with its
identifying payload: geometry and texture jobs carry the node id they were
created for, the material job carries the list of material handles it will
update. -/
inductive JobKind
  | destroyExpiredResources
  | updateWorldTransform
  | updateRenderParameters
  | updateInstanceBuffer
  | updateEmitters
  | buildGeometry (geometryId : Nat)
  | uploadTexture (textureImageId : Nat)
  | updateMaterials (dirtyMaterialHandles : List Nat)
  | buildSceneTLAS
deriving DecidableEq, Repr

/-- A job together with the dependency edges attached to it during this
build pass (each dependency named by the kind of the prerequisite job). -/
structure Job where
  kind : JobKind
  dependencies : List JobKind
deriving DecidableEq, Repr

/-- Backend node managers as seen by the job builder: the dirty component
lists (each entry is a node id paired with whether lookupHandle resolves it
to a non-null handle) and the material manager active-handle list. -/
structure NodeManagers where
  dirtyGeometry : List (Nat × Bool)
  dirtyTextureImages : List (Nat × Bool)
  activeMaterialHandles : List Nat
  dirtyMaterials : List (Nat × Bool)
deriving DecidableEq, Repr

/-- Renderer::createGeometryJobs: acquires the dirty components of the
geometry manager (emptying its dirty list) and creates one
BuildGeometryJob per entry whose handle resolves; entries with a null
handle are silently dropped. Takes and returns the dirty list of the
geometry manager, the only manager the function touches. -/
def createGeometryJobs (dirtyGeometry : List (Nat × Bool)) :
    List Job × List (Nat × Bool) :=
  (((dirtyGeometry.filter (fun p => p.2)).map
      (fun p => ⟨JobKind.buildGeometry p.1, []⟩)), [])

/-- Renderer::createTextureJobs: acquires the dirty components of the
texture-image manager (emptying its dirty list) and creates one
UploadTextureJob per entry whose handle resolves. -/
def createTextureJobs (dirtyTextureImages : List (Nat × Bool)) :
    List Job × List (Nat × Bool) :=
  (((dirtyTextureImages.filter (fun p => p.2)).map
      (fun p => ⟨JobKind.uploadTexture p.1, []⟩)), [])

/-- Renderer::createMaterialJobs: when forceAllDirty is set the single
UpdateMaterialsJob targets every active material handle and the dirty
list is cleared without being read; otherwise it targets the resolvable
dirty materials, acquired and thereby cleared. Either way exactly one job
is returned together with the emptied dirty list of the material
manager. -/
def createMaterialJobs (forceAllDirty : Bool) (activeMaterialHandles : List Nat)
    (dirtyMaterials : List (Nat × Bool)) : List Job × List (Nat × Bool) :=
  if forceAllDirty then
    ([⟨JobKind.updateMaterials activeMaterialHandles, []⟩], [])
  else
    ([⟨JobKind.updateMaterials
        ((dirtyMaterials.filter (fun p => p.2)).map (fun p => p.1)), []⟩], [])

/-- Renderer state consumed and updated by jobsToExecute: the accumulated
dirty set, the node managers, the scene-manager renderable list together
with the list gatherEntities would produce, and the render-progress fields
touched by resetRenderProgress. -/
structure RendererJobState where
  dirtySet : DirtySet
  nodeManagers : NodeManagers
  renderables : List Nat
  gatheredRenderables : List Nat
  clearPreviousRenderBuffer : Bool
  frameNumber : Nat
deriving DecidableEq, Repr

/-- Renderer::jobsToExecute, translated statement by statement: appends the
destroy-expired job, calls resetRenderProgress if anything is dirty,
derives the shouldUpdate flags from the dirty bits, creates geometry,
texture and material jobs (material forced to all active handles when the
Texture bit is set, and made dependent on every texture job of this pass),
clears the dirty set, optionally appends the render-parameters job, then
gathers entities when needed and returns early if the renderable set is
empty, otherwise appends the TLAS, instance-buffer and emitter jobs with
their dependency edges. Singleton-job dependency lists are rebuilt each
pass, matching the removeDependency calls at the top of the function
together with the expiry of the previous-pass job pointers. -/
def jobsToExecute (st : RendererJobState) : List Job × RendererJobState :=
  let d := st.dirtySet
  let entityOrGeometry := d.entity || d.geometry
  let sceneEntitiesDirty := entityOrGeometry || d.light
  let shouldUpdateTLAS := entityOrGeometry || d.transform || d.geometry
  let shouldUpdateRenderParameters := d.transform || d.camera
  let shouldUpdateInstanceBuffer :=
    entityOrGeometry || d.transform || d.geometry || (d.material || d.texture)
  let shouldUpdateEmitters :=
    entityOrGeometry || d.light || d.transform || d.geometry || d.texture
      || (d.material || d.texture)
  let transformDeps : List JobKind :=
    if d.transform then [JobKind.updateWorldTransform] else []
  let gm := if d.geometry then createGeometryJobs st.nodeManagers.dirtyGeometry
            else ([], st.nodeManagers.dirtyGeometry)
  let geometryJobs := gm.1
  let tm := if d.texture then createTextureJobs st.nodeManagers.dirtyTextureImages
            else ([], st.nodeManagers.dirtyTextureImages)
  let textureJobs := tm.1
  let mm :=
    if d.material || d.texture then
      let created := createMaterialJobs d.texture
        st.nodeManagers.activeMaterialHandles st.nodeManagers.dirtyMaterials
      ((created.1.map (fun j => { j with dependencies :=
          j.dependencies ++ textureJobs.map (fun t => t.kind) })), created.2)
    else ([], st.nodeManagers.dirtyMaterials)
  let materialJobs := mm.1
  let jobs : List Job :=
    [⟨JobKind.destroyExpiredResources, []⟩]
    ++ (if d.transform then [⟨JobKind.updateWorldTransform, []⟩] else [])
    ++ geometryJobs
    ++ textureJobs
    ++ materialJobs
    ++ (if shouldUpdateRenderParameters then
          [⟨JobKind.updateRenderParameters, transformDeps⟩] else [])
  let stOut : RendererJobState :=
    { dirtySet := DirtySet.noneDirty,
      nodeManagers :=
        { dirtyGeometry := gm.2, dirtyTextureImages := tm.2,
          activeMaterialHandles := st.nodeManagers.activeMaterialHandles,
          dirtyMaterials := mm.2 },
      renderables :=
        if sceneEntitiesDirty then st.gatheredRenderables else st.renderables,
      gatheredRenderables := st.gatheredRenderables,
      clearPreviousRenderBuffer :=
        if d ≠ DirtySet.noneDirty then true else st.clearPreviousRenderBuffer,
      frameNumber := if d ≠ DirtySet.noneDirty then 0 else st.frameNumber }
  if stOut.renderables.length = 0 then
    (jobs, stOut)
  else
    let geometryKinds := geometryJobs.map (fun j => j.kind)
    let materialKinds := materialJobs.map (fun j => j.kind)
    let textureKinds := textureJobs.map (fun j => j.kind)
    (jobs
     ++ (if shouldUpdateTLAS then
          [⟨JobKind.buildSceneTLAS,
            [JobKind.updateWorldTransform] ++ geometryKinds⟩] else [])
     ++ (if shouldUpdateInstanceBuffer then
          [⟨JobKind.updateInstanceBuffer,
            transformDeps ++ geometryKinds ++ materialKinds⟩] else [])
     ++ (if shouldUpdateEmitters then
          [⟨JobKind.updateEmitters,
            transformDeps ++ geometryKinds ++ materialKinds ++ textureKinds⟩] else []),
     stOut)

/-- Renderer::previousFrameIndex for ring size n and current index i:
the index one step back around the ring. -/
def previousFrameIndex (n i : Nat) : Nat :=
  if i > 0 then i - 1 else n - 1

/-- Renderer::currentFrameIndex is the stored frame index itself; the two
timestamp-query slots of a frame start at twice its ring index. -/
def currentFrameQueryIndex (i : Nat) : Nat := i * 2

/-- Query slot read back for the previous frame in renderFrame. -/
def previousFrameQueryIndex (n i : Nat) : Nat := previousFrameIndex n i * 2

/-- Renderer::submitFrameCommands: submits the frame command buffer; when
the queue submission succeeds the ring index advances by one modulo the
number of concurrent frames, otherwise the function returns early with the
index unchanged. Returns the new index and the success flag. -/
def submitFrameCommands (n i : Nat) (queueSubmitOk : Bool) : Nat × Bool :=
  if queueSubmitOk then ((i + 1) % n, true) else (i, false)

/-- Renderer::updateFrameTimings: the CPU wall-time sample is always added
to the host rolling average; the GPU sample is added to the device rolling
average only when it is strictly greater than zero. Averages are modelled
by their sample lists; times are rationals. -/
def updateFrameTimings (cpuFrameTime gpuFrameTime : ℚ)
    (hostSamples deviceSamples : List ℚ) : List ℚ × List ℚ :=
  (hostSamples ++ [cpuFrameTime],
   if gpuFrameTime > 0 then deviceSamples ++ [gpuFrameTime] else deviceSamples)

/-- Steps of the per-frame state machine, in the vocabulary of the spec. -/
inductive FrameStep
  | resizeSwapchain
  | acquireSlot
  | reclaimExpired
  | checkReady
  | refreshBindings
  | recordCommands
  | acquirePresentImage
  | submit
  | advanceRing
  | present
  | measureTiming
deriving DecidableEq, Repr

/-- Trace of the steps Renderer::renderFrame performs, in program order:
resize check, fence wait and reset on the current slot, reclaiming retired
resources, the readiness check, the per-frame descriptor rewrite when
ready, command recording (during which, when the swapchain size is valid,
the next presentable image is acquired), queue submission, the ring
advance when submission succeeded, presentation when submission succeeded
and the swapchain is valid, and finally the timing measurement. An absent
window surface makes the function bail out at the top. -/
def renderFrameTrace (windowPresent readyToRender swapchainValid
    _acquireOk queueSubmitOk : Bool) : List FrameStep :=
  if !windowPresent then [] else
  [FrameStep.resizeSwapchain, FrameStep.acquireSlot,
   FrameStep.reclaimExpired, FrameStep.checkReady]
  ++ (if readyToRender then [FrameStep.refreshBindings] else [])
  ++ [FrameStep.recordCommands]
  ++ (if swapchainValid then [FrameStep.acquirePresentImage] else [])
  ++ [FrameStep.submit]
  ++ (if queueSubmitOk then [FrameStep.advanceRing] else [])
  ++ (if queueSubmitOk && swapchainValid then [FrameStep.present] else [])
  ++ [FrameStep.measureTiming]

/-- Decides whether the first list is a subsequence of the second, i.e.
its elements occur in the second list in the same relative order. -/
def isSubseqOf : List FrameStep → List FrameStep → Bool
  | [], _ => true
  | _ :: _, [] => false
  | a :: l, b :: r => if a = b then isSubseqOf l r else isSubseqOf (a :: l) r

/-- Index of the first occurrence of a step in a trace (length if absent). -/
def stepIdx (tr : List FrameStep) (s : FrameStep) : Nat :=
  tr.findIdx (fun x => x = s)

/-- Mutable renderer state threaded through renderFrame, restricted to the
fields the frame loop reads and writes. -/
structure RenderState where
  numConcurrentFrames : Nat
  frameIndex : Nat
  renderBuffersReady : Bool
  clearPreviousRenderBuffer : Bool
  frameNumber : Nat
  hostSamples : List ℚ
  deviceSamples : List ℚ
  lastRenderBuffer : Option Nat
  lastSwapchainImage : Option Nat
deriving DecidableEq, Repr

/-- State update performed by one Renderer::renderFrame call, with the
outcomes of the external device operations passed in: the readiness of the
scene, the validity of the swapchain size, the result of
acquireNextSwapchainImage, the result of vkQueueSubmit, the image index
the acquire produced, and the CPU and previous-frame GPU time samples.
When ready, beginRenderIteration increments the frame number and the trace
dispatch records the current render buffer as the last one produced; when
the acquire succeeds the display pass records the presented swapchain
image; the render buffers are marked ready and the pending clear consumed;
the ring index advances only on successful submission; the timing update
runs last. -/
def renderFrame (st : RenderState) (readyToRender swapchainValid
    acquireOk queueSubmitOk : Bool) (swapchainImageIndex : Nat)
    (cpuFrameTime gpuFrameTime : ℚ) : RenderState :=
  let frameNumber1 := if readyToRender then st.frameNumber + 1 else st.frameNumber
  let lastRenderBuffer1 :=
    if readyToRender then some st.frameIndex else st.lastRenderBuffer
  let lastSwapchainImage1 :=
    if swapchainValid && acquireOk then some swapchainImageIndex
    else st.lastSwapchainImage
  let submitted := submitFrameCommands st.numConcurrentFrames st.frameIndex queueSubmitOk
  let timings := updateFrameTimings cpuFrameTime gpuFrameTime
    st.hostSamples st.deviceSamples
  { st with
    frameIndex := submitted.1,
    renderBuffersReady := true,
    clearPreviousRenderBuffer := false,
    frameNumber := frameNumber1,
    hostSamples := timings.1,
    deviceSamples := timings.2,
    lastRenderBuffer := lastRenderBuffer1,
    lastSwapchainImage := lastSwapchainImage1 }

/-- Loop of Renderer::createRenderBufferResources that writes the
previous-render-buffer descriptor of every slot: the previous pointer
starts at slot numConcurrentFrames - 1 and after each slot is bound it
moves to that slot. The fuel argument counts the remaining slots. Returns
the list of pairs (slot index, ring index of the render buffer bound as
its previous render buffer). -/
def prevRenderBufferBindingsAux : Nat → Nat → Nat → List (Nat × Nat)
  | _, _, 0 => []
  | prev, i, fuel + 1 => (i, prev) :: prevRenderBufferBindingsAux i (i + 1) fuel

/-- Previous-render-buffer descriptor bindings produced by
Renderer::createRenderBufferResources for a ring of n slots. -/
def prevRenderBufferBindings (n : Nat) : List (Nat × Nat) :=
  prevRenderBufferBindingsAux (n - 1) 0 n

/-- Numeric type of a channel in a grabbed image, QImageData::ValueType.
The undefinedType value is the zero-initialized default. -/
inductive ValueType
  | undefinedType
  | uint8
  | float32
deriving DecidableEq, Repr

/-- Channel order of a grabbed image, QImageData::Format. The
undefinedFormat value is the zero-initialized default. -/
inductive ChannelOrder
  | undefinedFormat
  | rgba
  | bgra
deriving DecidableEq, Repr

/-- Image formats Renderer::grabImage supports in its format switch. -/
inductive ImageFormat
  | r8g8b8a8Srgb
  | r8g8b8a8Unorm
  | b8g8r8a8Srgb
  | b8g8r8a8Unorm
  | r32g32b32a32Sfloat
deriving DecidableEq, Repr

/-- Raw pixel readback result, QImageData. The zero-initialized value
QImageData\x7b\x7d has zero extents, no channels and an empty byte
buffer. -/
structure QImageData where
  width : Nat := 0
  height : Nat := 0
  channels : Nat := 0
  type : ValueType := ValueType.undefinedType
  format : ChannelOrder := ChannelOrder.undefinedFormat
  data : List Nat := []
deriving DecidableEq, Repr

/-- The empty readback result QImageData\x7b\x7d. -/
def QImageData.empty : QImageData := {}

/-- Numeric type assigned by the grabImage format switch. -/
def formatValueType : ImageFormat → ValueType
  | ImageFormat.r8g8b8a8Srgb => ValueType.uint8
  | ImageFormat.r8g8b8a8Unorm => ValueType.uint8
  | ImageFormat.b8g8r8a8Srgb => ValueType.uint8
  | ImageFormat.b8g8r8a8Unorm => ValueType.uint8
  | ImageFormat.r32g32b32a32Sfloat => ValueType.float32

/-- Channel order assigned by the grabImage format switch. -/
def formatChannelOrder : ImageFormat → ChannelOrder
  | ImageFormat.r8g8b8a8Srgb => ChannelOrder.rgba
  | ImageFormat.r8g8b8a8Unorm => ChannelOrder.rgba
  | ImageFormat.b8g8r8a8Srgb => ChannelOrder.bgra
  | ImageFormat.b8g8r8a8Unorm => ChannelOrder.bgra
  | ImageFormat.r32g32b32a32Sfloat => ChannelOrder.rgba

/-- Low-level Renderer::grabImage overload: fills width, height, four
channels, and the numeric type and channel order from the image format;
then stages a copy of the image through a host-visible buffer. When the
staging buffer cannot be created or the transfer command fails, the
function returns with the data still empty; otherwise the data is the
byte content copied from the image. The image pixels stand for the bytes
the device copy would produce. -/
def grabImageRaw (imagePixels : List Nat) (width height : Nat)
    (format : ImageFormat) (stagingOk transferOk : Bool) : QImageData :=
  let output : QImageData :=
    { width := width, height := height, channels := 4,
      type := formatValueType format,
      format := formatChannelOrder format, data := [] }
  if !stagingOk then output
  else if !transferOk then output
  else { output with data := imagePixels }

/-- Kind of image requested from the public grabImage entry point. -/
inductive QRenderImage
  | hdr
  | finalLDR
deriving DecidableEq, Repr

/-- Renderer state read by the public grabImage entry point: the tracked
render-buffer and swapchain sizes, the swapchain surface format, and the
pixel content of the last produced render buffer and last presented
swapchain image, absent when no such image was ever produced. -/
structure GrabState where
  renderBufferWidth : Nat
  renderBufferHeight : Nat
  swapchainWidth : Nat
  swapchainHeight : Nat
  swapchainFormat : ImageFormat
  lastRenderBuffer : Option (List Nat)
  lastSwapchainImage : Option (List Nat)
deriving DecidableEq, Repr

/-- Public Renderer::grabImage(QRenderImage): for HDR it reads the last
render buffer at the render-buffer size in the fixed
R32G32B32A32_SFLOAT render-buffer format, for FinalLDR the last presented
swapchain image at the swapchain size in the swapchain format; when the
requested image was never produced it returns the empty QImageData
instead of touching any image memory. -/
def grabImage (st : GrabState) (type : QRenderImage)
    (stagingOk transferOk : Bool) : QImageData :=
  match type with
  | QRenderImage.hdr =>
    match st.lastRenderBuffer with
    | none => QImageData.empty
    | some pixels =>
      grabImageRaw pixels st.renderBufferWidth st.renderBufferHeight
        ImageFormat.r32g32b32a32Sfloat stagingOk transferOk
  | QRenderImage.finalLDR =>
    match st.lastSwapchainImage with
    | none => QImageData.empty
    | some pixels =>
      grabImageRaw pixels st.swapchainWidth st.swapchainHeight
        st.swapchainFormat stagingOk transferOk

/-- True for the update-materials job. -/
def Job.isUpdateMaterials (j : Job) : Bool :=
  match j.kind with
  | JobKind.updateMaterials _ => true
  | _ => false

/-- True for the TLAS-build, instance-buffer and emitter-update jobs, the
jobs skipped when the renderable set is empty. -/
def Job.isSceneStructural (j : Job) : Bool :=
  match j.kind with
  | JobKind.buildSceneTLAS => true
  | JobKind.updateInstanceBuffer => true
  | JobKind.updateEmitters => true
  | _ => false

/-- True for every scene-update job kind: TLAS build, instance buffer,
emitter update, geometry build, texture upload and material update. -/
def Job.isSceneUpdate (j : Job) : Bool :=
  match j.kind with
  | JobKind.buildSceneTLAS => true
  | JobKind.updateInstanceBuffer => true
  | JobKind.updateEmitters => true
  | JobKind.buildGeometry _ => true
  | JobKind.uploadTexture _ => true
  | JobKind.updateMaterials _ => true
  | _ => false

/-- Order in which the per-frame steps actually occur in renderFrame. -/
def actualFrameStepOrder : List FrameStep :=
  [FrameStep.resizeSwapchain, FrameStep.acquireSlot,
   FrameStep.reclaimExpired, FrameStep.checkReady,
   FrameStep.refreshBindings, FrameStep.recordCommands,
   FrameStep.acquirePresentImage, FrameStep.submit,
   FrameStep.advanceRing, FrameStep.present, FrameStep.measureTiming]

/-- C7: for every ring size of at least one slot, previousFrameIndex
returns the last slot when the current index is zero, and the index one
less when the current index is positive. -/
theorem previousFrameIndex_spec (n : Nat) (h : 1 ≤ n) :
    previousFrameIndex n 0 = n - 1 ∧
    ∀ k : Nat, 0 < k → previousFrameIndex n k = k - 1 := by
  constructor
  · simp [previousFrameIndex]
  · intro k hk
    simp [previousFrameIndex, hk]

/-- Witness for C7 at ring size three with current indices zero and two. -/
theorem previousFrameIndex_spec_witness :
    previousFrameIndex 3 0 = 3 - 1 ∧ previousFrameIndex 3 2 = 2 - 1 :=
  ⟨(previousFrameIndex_spec 3 (by decide)).1,
   (previousFrameIndex_spec 3 (by decide)).2 2 (by decide)⟩

/-- C9: with a single ring slot the previous frame index coincides with
the current one, and the previous-render-buffer descriptor of the only
slot binds the render buffer of that same slot. -/
theorem singleSlot_prev_is_current (i : Nat) (h : i < 1) :
    previousFrameIndex 1 i = i ∧ prevRenderBufferBindings 1 = [(0, 0)] := by
  have hi : i = 0 := by omega
  subst hi
  exact ⟨by decide, by decide⟩

/-- Witness for C9 at the only valid index of a one-slot ring. -/
theorem singleSlot_prev_is_current_witness :
    previousFrameIndex 1 0 = 0 ∧ prevRenderBufferBindings 1 = [(0, 0)] :=
  singleSlot_prev_is_current 0 (by decide)

/-- Counterexample to C1: in a frame where every external operation
succeeds, the presentable swapchain image is acquired during command
recording, strictly before the frame commands are submitted, and the ring
advance happens before presentation; both contradict the claimed order
RecordCommands, Submit, AcquirePresentImage, Present, AdvanceRing. -/
theorem acquire_before_submit_counterexample :
    FrameStep.acquirePresentImage ∈ renderFrameTrace true true true true true ∧
    FrameStep.submit ∈ renderFrameTrace true true true true true ∧
    stepIdx (renderFrameTrace true true true true true) FrameStep.acquirePresentImage <
      stepIdx (renderFrameTrace true true true true true) FrameStep.submit ∧
    FrameStep.present ∈ renderFrameTrace true true true true true ∧
    stepIdx (renderFrameTrace true true true true true) FrameStep.advanceRing <
      stepIdx (renderFrameTrace true true true true true) FrameStep.present := by
  decide

/-- C1 amended: in every frame, the steps that occur do so in the order
AcquireSlot, ReclaimExpired, CheckReady, RefreshBindings, RecordCommands,
AcquirePresentImage, Submit, AdvanceRing, Present, MeasureTiming; when a
window surface is set and the swapchain size is valid, the presentable
image is acquired during command recording, after recording begins and
strictly before the frame commands are submitted. -/
theorem renderFrame_step_order (w r s a q : Bool) :
    isSubseqOf (renderFrameTrace w r s a q) actualFrameStepOrder = true ∧
    (s = true → w = true →
      stepIdx (renderFrameTrace w r s a q) FrameStep.recordCommands <
        stepIdx (renderFrameTrace w r s a q) FrameStep.acquirePresentImage ∧
      stepIdx (renderFrameTrace w r s a q) FrameStep.acquirePresentImage <
        stepIdx (renderFrameTrace w r s a q) FrameStep.submit ∧
      FrameStep.acquirePresentImage ∈ renderFrameTrace w r s a q) := by
  revert w r s a q
  decide

/-- Witness for C1 amended with every step present. -/
theorem renderFrame_step_order_witness :
    isSubseqOf (renderFrameTrace true true true true true) actualFrameStepOrder = true ∧
    stepIdx (renderFrameTrace true true true true true) FrameStep.acquirePresentImage <
      stepIdx (renderFrameTrace true true true true true) FrameStep.submit :=
  ⟨(renderFrame_step_order true true true true true).1,
   ((renderFrame_step_order true true true true true).2 rfl rfl).2.1⟩

/-- Concrete renderer state with a two-slot ring used to exhibit the
behaviour of a frame whose queue submission fails. -/
def failedSubmitState : RenderState :=
  { numConcurrentFrames := 2, frameIndex := 0, renderBuffersReady := true,
    clearPreviousRenderBuffer := false, frameNumber := 5,
    hostSamples := [], deviceSamples := [],
    lastRenderBuffer := none, lastSwapchainImage := none }

/-- Counterexample to C2: in a frame iteration whose queue submission
fails, the ring slot index is left unchanged instead of being rotated by
one modulo the ring size. -/
theorem advanceRing_skipped_on_failed_submit :
    (renderFrame failedSubmitState true true true false 0 1 1).frameIndex ≠
      (failedSubmitState.frameIndex + 1) % failedSubmitState.numConcurrentFrames := by
  decide

/-- C2 amended: in every frame iteration whose queue submission succeeds,
the ring slot index rotates by one modulo the number of concurrent frames,
regardless of scene readiness, swapchain validity, the acquire outcome, or
any other per-frame input, hence regardless of whether presentation
occurred that frame. -/
theorem advanceRing_rotates_mod_ring (st : RenderState)
    (ready swapValid acquireOk : Bool) (idx : Nat) (cpu gpu : ℚ) :
    (renderFrame st ready swapValid acquireOk true idx cpu gpu).frameIndex =
      (st.frameIndex + 1) % st.numConcurrentFrames := by
  simp [renderFrame, submitFrameCommands]

/-- Counterexample to C3: a queried GPU time of exactly zero is
non-negative, yet updateFrameTimings does not fold it into the device
rolling average, because the code folds only strictly positive values. -/
theorem gpu_time_zero_not_folded :
    (0 : ℚ) ≥ 0 ∧ (updateFrameTimings 1 0 [] []).2 = [] ∧
    (updateFrameTimings 1 0 [] []).1 = [1] := by
  refine ⟨le_refl 0, ?_, ?_⟩ <;> simp [updateFrameTimings]

/-- C3 amended: the timestamp-query pair read back during the measurement
step of the frame that follows a successful frame at ring index i is
exactly the pair that frame wrote (one frame behind); the CPU wall-time
sample is folded into the host rolling average unconditionally, and a
queried GPU time value is folded into the device rolling average exactly
when it is strictly positive (a non-positive value, in particular the
negative value standing for an unavailable query, is skipped). -/
theorem frame_timings_spec (n i : Nat) (cpu gpu : ℚ)
    (host dev : List ℚ) (hn : 1 ≤ n) (hi : i < n) :
    previousFrameQueryIndex n ((i + 1) % n) = currentFrameQueryIndex i ∧
    (updateFrameTimings cpu gpu host dev).1 = host ++ [cpu] ∧
    (0 < gpu → (updateFrameTimings cpu gpu host dev).2 = dev ++ [gpu]) ∧
    (¬ 0 < gpu → (updateFrameTimings cpu gpu host dev).2 = dev) := by
  refine ⟨?_, ?_, ?_, ?_⟩
  · unfold previousFrameQueryIndex currentFrameQueryIndex previousFrameIndex
    rcases Nat.lt_or_ge (i + 1) n with h | h
    · rw [Nat.mod_eq_of_lt h]
      simp
    · have hin : i + 1 = n := by omega
      rw [hin, Nat.mod_self]
      simp
      omega
  · simp [updateFrameTimings]
  · intro h
    simp [updateFrameTimings, h]
  · intro h
    simp [updateFrameTimings, h]

/-- Witness for C3 amended: with a two-slot ring, the frame after a
successful frame at index one reads query pair two, the pair written at
index one; a positive GPU sample is folded and the CPU sample always is. -/
theorem frame_timings_spec_witness :
    previousFrameQueryIndex 2 ((1 + 1) % 2) = currentFrameQueryIndex 1 ∧
    (updateFrameTimings 1 2 [] []).1 = [] ++ [1] ∧
    (updateFrameTimings 1 2 [] []).2 = [] ++ [2] := by
  have h := frame_timings_spec 2 1 1 2 [] [] (by decide) (by decide)
  exact ⟨h.1, h.2.1, h.2.2.1 (by norm_num)⟩

set_option maxHeartbeats 1000000 in
/-- C4: whenever the Texture dirty flag is set, whatever else is dirty and
whatever was separately marked dirty in the material manager, the built
job list contains exactly one material-update job, its target set is the
full active material handle list, and its dependency list is exactly the
texture-upload jobs created in the same pass. -/
theorem textureDirty_single_material_job (st : RendererJobState)
    (h : st.dirtySet.texture = true) :
    (jobsToExecute st).1.filter Job.isUpdateMaterials =
      [⟨JobKind.updateMaterials st.nodeManagers.activeMaterialHandles,
        (st.nodeManagers.dirtyTextureImages.filter (fun p => p.2)).map
          (fun p => JobKind.uploadTexture p.1)⟩] := by
  unfold jobsToExecute createGeometryJobs createTextureJobs createMaterialJobs
  dsimp only
  split <;> (try split_ifs) <;>
    simp_all [Job.isUpdateMaterials, List.filter_append, List.filter_map,
      Function.comp]

/-- Concrete renderer state whose Texture flag is dirty, with three active
materials, one separately dirtied material, and two dirty texture images
of which one handle no longer resolves. -/
def texturedState : RendererJobState :=
  ⟨{ texture := true },
   ⟨[], [(5, true), (6, false)], [10, 11, 12], [(10, true)]⟩, [7], [7], false, 2⟩

/-- Witness for C4 on the textured state: one material job targeting all
three active materials, depending on the single resolvable texture job. -/
theorem textureDirty_single_material_job_witness :
    (jobsToExecute texturedState).1.filter Job.isUpdateMaterials =
      [⟨JobKind.updateMaterials [10, 11, 12], [JobKind.uploadTexture 5]⟩] := by
  simpa using textureDirty_single_material_job texturedState rfl

set_option maxHeartbeats 1000000 in
/-- C5: when the dirty set is empty, the built job list still contains the
reclaim-expired-resources job, and no TLAS-build, instance-buffer,
emitter-update, geometry-build, texture-upload or material-update job. -/
theorem noneDirty_only_reclaim (st : RendererJobState)
    (h : st.dirtySet = DirtySet.noneDirty) :
    (⟨JobKind.destroyExpiredResources, []⟩ : Job) ∈ (jobsToExecute st).1 ∧
    (jobsToExecute st).1.filter Job.isSceneUpdate = [] := by
  unfold jobsToExecute
  simp only [h]
  dsimp only [DirtySet.noneDirty]
  split <;> simp_all [Job.isSceneUpdate] <;> split <;> simp_all [Job.isSceneUpdate]

/-- Concrete renderer state with nothing dirty but every manager holding
stale entries and a nonempty renderable set. -/
def idleState : RendererJobState :=
  ⟨{}, ⟨[(1, true)], [(2, true)], [3], [(3, true)]⟩, [7], [7], false, 2⟩

/-- Witness for C5 on the idle state. -/
theorem noneDirty_only_reclaim_witness :
    (⟨JobKind.destroyExpiredResources, []⟩ : Job) ∈ (jobsToExecute idleState).1 ∧
    (jobsToExecute idleState).1.filter Job.isSceneUpdate = [] :=
  noneDirty_only_reclaim idleState rfl

/-- C6: markDirty only ORs category bits into the accumulated dirty set,
so between two clears the set is monotonically non-decreasing, and every
job-graph build returns with the dirty set reset to the empty set (the
clear happens once, inside jobsToExecute, after every read of the dirty
bits that the built graph depends on). -/
theorem markDirty_monotone_build_clears (d ch : DirtySet) (st : RendererJobState) :
    DirtySet.subset d (markDirty d ch) ∧
    (jobsToExecute st).2.dirtySet = DirtySet.noneDirty := by
  constructor
  · unfold DirtySet.subset markDirty DirtySet.union
    refine ⟨?_, ?_, ?_, ?_, ?_, ?_, ?_⟩ <;> (intro hx; simp [hx])
  · unfold jobsToExecute
    dsimp only
    split <;> split <;> rfl

set_option maxHeartbeats 1000000 in
/-- C10: jobsToExecute resets the dirty set to the empty set on every
path, and on the path where the (possibly regathered) renderable set is
empty the returned job list carries no TLAS-build, instance-buffer or
emitter-update job: the skipped update intent is consumed rather than
carried into the next frame. -/
theorem jobsToExecute_clears_dirty_always (st : RendererJobState) :
    (jobsToExecute st).2.dirtySet = DirtySet.noneDirty ∧
    ((jobsToExecute st).2.renderables = [] →
      (jobsToExecute st).1.filter Job.isSceneStructural = []) := by
  constructor
  · unfold jobsToExecute
    dsimp only
    split <;> split <;> rfl
  · unfold jobsToExecute createGeometryJobs createTextureJobs createMaterialJobs
    dsimp only
    split <;> split
    all_goals intro h
    all_goals try split_ifs
    all_goals simp_all [Job.isSceneStructural, List.filter_append,
      List.filter_map, Function.comp]

/-- Concrete renderer state with geometry and transform dirty whose
regathered renderable set ends up empty. -/
def emptySceneState : RendererJobState :=
  ⟨{ transform := true, geometry := true }, ⟨[(1, true)], [], [4], []⟩,
   [], [], false, 7⟩

/-- Witness for C10 on the empty-scene state: the dirty set is consumed
and the flagged TLAS, instance-buffer and emitter jobs are skipped. -/
theorem jobsToExecute_clears_dirty_always_witness :
    (jobsToExecute emptySceneState).2.dirtySet = DirtySet.noneDirty ∧
    (jobsToExecute emptySceneState).1.filter Job.isSceneStructural = [] :=
  ⟨(jobsToExecute_clears_dirty_always emptySceneState).1,
   (jobsToExecute_clears_dirty_always emptySceneState).2 (by decide)⟩

/-- C8: grabImage returns the empty QImageData when the requested image
was never produced (no last render buffer for HDR, no last presented
swapchain image for FinalLDR), and otherwise returns a pixel buffer
described by the width, height, the four channels, the numeric type and
channel order derived from the image format, with the data copied from
that image. -/
theorem grabImage_spec (st : GrabState) (stagingOk transferOk : Bool)
    (hdrPixels ldrPixels : List Nat) :
    (st.lastRenderBuffer = none →
      grabImage st QRenderImage.hdr stagingOk transferOk = QImageData.empty) ∧
    (st.lastSwapchainImage = none →
      grabImage st QRenderImage.finalLDR stagingOk transferOk = QImageData.empty) ∧
    (st.lastRenderBuffer = some hdrPixels →
      grabImage st QRenderImage.hdr true true =
        { width := st.renderBufferWidth, height := st.renderBufferHeight,
          channels := 4, type := ValueType.float32,
          format := ChannelOrder.rgba, data := hdrPixels }) ∧
    (st.lastSwapchainImage = some ldrPixels →
      grabImage st QRenderImage.finalLDR true true =
        { width := st.swapchainWidth, height := st.swapchainHeight,
          channels := 4, type := formatValueType st.swapchainFormat,
          format := formatChannelOrder st.swapchainFormat, data := ldrPixels }) := by
  refine ⟨?_, ?_, ?_, ?_⟩ <;> intro h <;>
    simp [grabImage, h, grabImageRaw, formatValueType, formatChannelOrder]

/-- Concrete readback state: the render buffer was never produced, while
a swapchain image in BGRA byte format was presented. -/
def grabbedState : GrabState :=
  ⟨4, 3, 2, 2, ImageFormat.b8g8r8a8Unorm, none, some [9, 9]⟩

/-- Witness for C8: grabbing the never-produced HDR target yields the
empty result; grabbing the presented LDR target yields its pixels with
the BGRA byte description. -/
theorem grabImage_spec_witness :
    grabImage grabbedState QRenderImage.hdr true true = QImageData.empty ∧
    grabImage grabbedState QRenderImage.finalLDR true true =
      { width := 2, height := 2, channels := 4, type := ValueType.uint8,
        format := ChannelOrder.bgra, data := [9, 9] } :=
  ⟨(grabImage_spec grabbedState true true [] [9, 9]).1 rfl,
   (grabImage_spec grabbedState true true [] [9, 9]).2.2.2 rfl⟩

end Quartz
